import Mathlib

/-!
# Squirrel.Windows `Setup/winmain.cpp`: the bootstrap decision sequence

A shallow embedding of `wWinMain`.  The function is straight-line code with
early exits (`goto out`), one mutable argument buffer (`lpCmdLine`), and calls
into external collaborators.  The embedding threads the buffer and a
chronological trace of every call explicitly; the results of the
collaborators are supplied by an environment record.
-/

namespace Setup

/-- Wide-character strings (`LPWSTR`, `CString`, `wchar_t[]`) as character lists. -/
abbrev WString := List Char

/-- `HRESULT` (a 32-bit signed `long`) and `int` have the same width on the
target, so the assignments `exitCode = hr` and `exitCode = E_FAIL` convert
nothing; both are carried as integers. -/
abbrev HRESULT := Int

/-- Reinterpretation of a 32-bit pattern as a signed 32-bit integer. -/
def toInt32 (n : Int) : Int := (n + 2 ^ 31) % 2 ^ 32 - 2 ^ 31

def S_OK : HRESULT := 0

def S_FALSE : HRESULT := 1

/-- The constant `E_FAIL`, `0x80004005` read as a signed 32-bit value. -/
def E_FAIL : HRESULT := toInt32 0x80004005

/-- The `FAILED(hr)` test: the severity bit is set, that is `hr < 0`. -/
def FAILED (hr : HRESULT) : Bool := decide (hr < 0)

/-- Search of `pat` in `s` from the left, counting the characters skipped in `i`;
the index of the first occurrence, or `-1`. -/
def findFrom (pat : WString) : WString → Nat → Int
  | [], i => if pat = [] then (i : Int) else -1
  | c :: cs, i => if pat.isPrefixOf (c :: cs) then (i : Int) else findFrom pat cs (i + 1)

/-- The call `CString::Find(pat)`: the zero-based index of the first occurrence of
`pat` (case-sensitive), or `-1` when there is none. -/
def Find (s pat : WString) : Int := findFrom pat s 0

/-- The call `wcscat(dest, src)`: `src` is appended to the buffer `dest`. -/
def wcscat (dest src : WString) : WString := dest ++ src

/-! ## The string constants of `wWinMain` -/

/-- The token `L"--checkInstall"`. -/
def tokCheckInstall : WString := "--checkInstall".toList

/-- The token `L"-s"`. -/
def tokQuiet : WString := "-s".toList

/-- The token `L"--machine"`. -/
def tokMachine : WString := "--machine".toList

/-- The text `L" --silent"` that `wcscat` appends to the argument buffer. -/
def silentFlag : WString := " --silent".toList

def msgStartUp : WString := "Start up installer: %s".toList

def msgAlreadyInstalled : WString := "Already installed".toList

def msgWantMachine : WString := "Want machine install".toList

def msgMachineDone : WString :=
  "Machine-wide installation was successful! Users will see the app once they log out / log in again.".toList

def msgWantStandard : WString := "Want standard install".toList

def msgIncompatible : WString :=
  "This program cannot run on Windows XP or before; it requires a later version of Windows.".toList

def captionIncompatible : WString := "Incompatible Operating System".toList

def msgDotNetFailed : WString :=
  "Failed to install the .NET Framework, try installing .NET 4.5 or higher manually".toList

def msgRestart : WString := "we are UAC elevated, so restart %s, %s\n".toList

/-! ## The function `LogMessage` -/

/-- Scan of a format string; `pending` records that the previous character was `%`. -/
def expandFrom : WString → List WString → Bool → WString
  | [], _, pending => if pending then [Char.ofNat 37] else []
  | c :: rest, args, false =>
    if c = Char.ofNat 37 then expandFrom rest args true else c :: expandFrom rest args false
  | c :: rest, args, true =>
    if c = Char.ofNat 115 then
      match args with
      | a :: args2 => a ++ expandFrom rest args2 false
      | [] => expandFrom rest [] false
    else Char.ofNat 37 :: c :: expandFrom rest args false

/-- The complete expansion of a format string by the C runtime formatter, for the one
conversion the format strings of this program use: each `%s` is replaced by the
next argument and every other character is copied. -/
def expandS (fmt : WString) (args : List WString) : WString := expandFrom fmt args false

/-- What `LogMessage` depends on outside itself: the environment variable `TEMP`
and the file system. -/
structure LogEnv where
  /-- Result of `getenv("TEMP")`; `none` is the null pointer. -/
  getenvTEMP : Option (List Char)
  /-- Whether `fopen(path, "a")` returns a non-null stream. -/
  fopen : List Char → Bool
  /-- Result of `wcstombs(cbuff, buff, n)`: the narrow characters stored, or `none`
  when it returns `(size_t)-1`. -/
  wcstombs : WString → Nat → Option (List Char)

/-- The effects of one `LogMessage` call, in order. -/
inductive LogEffect where
  | OutputDebugString (buff : WString)
  | getenv (name : List Char)
  | fopen (path mode : List Char)
  | fwrite (data : List Char)
  | fclose
  | MessageBox (text caption : WString)
  deriving DecidableEq, Repr

/-- Number of elements of `wchar_t buff[1024]`. -/
def buffLen : Nat := 1024

/-- The size `sizeof(wchar_t)` on Windows. -/
def sizeofWchar : Nat := 2

/-- The value `sizeof(buff)`, in bytes. -/
def sizeofBuff : Nat := buffLen * sizeofWchar

/-- The value `sizeof(cbuff)` of `char cbuff[2048]`. -/
def sizeofCbuff : Nat := 2048

/-- The constant `MAX_PATH`, the number of elements of `char path[MAX_PATH]`. -/
def MAX_PATH : Nat := 260

/-- The call `_vsnwprintf(buff, count, fmt, args)`: at most `count` wide characters
of the expansion are stored. -/
def _vsnwprintf (count : Nat) (expansion : WString) : WString := expansion.take count

/-- The number of elements `_vsnwprintf(buff, count, ...)` writes: the expansion and
its terminator when the expansion is shorter than `count`, else `count` characters
and no terminator. -/
def storedCount (count : Nat) (expansion : WString) : Nat :=
  if expansion.length < count then expansion.length + 1 else count

/-- The count that `LogMessage` hands to `_vsnwprintf`: `sizeof(buff)`. -/
def formatLimit : Nat := sizeofBuff

/-- The wide characters `LogMessage` has `_vsnwprintf` store for `buff`. -/
def formatted (fmt : WString) (args : List WString) : WString :=
  _vsnwprintf formatLimit (expandS fmt args)

/-- The path `"%s\\SquirrelSetup.log"` built by `sprintf` from the value of `TEMP`. -/
def logPath (tempDir : List Char) : List Char := tempDir ++ "\\SquirrelSetup.log".toList

/-- What one `LogMessage` call does: whether it returns, and its effects in order
(for a call that does not return, the effects made before the write that ends it).
It does not return when it writes past `buff` or past `path`; what the process does
from there is not defined by the program, and the run is taken to end at that call. -/
structure LogRun where
  returns : Bool
  effects : List LogEffect
  deriving DecidableEq, Repr

/-- The function `LogMessage` of `Setup/winmain.cpp`.  `_vsnwprintf` writes
`storedCount` elements into the 1024 elements of `buff`, and `sprintf` writes the
path and its terminator into the `MAX_PATH` elements of `path`.  `size_t` is 32
bits wide; when `wcstombs` returns `(size_t)-1` the increment `len++` wraps to 0 and
`fwrite` is asked for 0 bytes. -/
def LogMessage (lenv : LogEnv) (showMessageBox : Bool) (fmt : WString) (args : List WString) :
    LogRun := Id.run do
  let expansion : WString := expandS fmt args
  if storedCount formatLimit expansion > buffLen then
    return { returns := false, effects := [] }
  let buff : WString := _vsnwprintf formatLimit expansion
  let mut eff : List LogEffect := [LogEffect.OutputDebugString buff]
  eff := eff ++ [LogEffect.getenv "TEMP".toList]
  match lenv.getenvTEMP with
  | some tempDir =>
    let path : List Char := logPath tempDir
    if path.length + 1 > MAX_PATH then
      return { returns := false, effects := eff }
    eff := eff ++ [LogEffect.fopen path "a".toList]
    if lenv.fopen path then
      let (cbuff, len) : List Char × Nat :=
        match lenv.wcstombs buff (sizeofCbuff - 2) with
        | some bytes => (bytes, bytes.length)
        | none => ([], 2 ^ 32 - 1)
      let len1 : Nat := (len + 1) % 2 ^ 32
      eff := eff ++ [LogEffect.fwrite ((cbuff ++ "\n".toList).take len1), LogEffect.fclose]
  | none => pure ()
  if showMessageBox then
    eff := eff ++ [LogEffect.MessageBox buff "Installer".toList]
  return { returns := true, effects := eff }

/-- The path built from `TEMP` and its terminator fit in `path`, or `TEMP` is not set. -/
def pathFits (lenv : LogEnv) : Bool :=
  match lenv.getenvTEMP with
  | some tempDir => decide ((logPath tempDir).length + 1 ≤ MAX_PATH)
  | none => true

/-- Every call `wWinMain` makes, in the shape it makes it (arguments included
where the claims speak about them). -/
inductive Event where
  | SetDefaultDllDirectories
  | LogMessage (showMessageBox : Bool) (fmt : WString) (args : List WString)
  | ShouldSilentInstall
  | CoInitialize
  | AtlInitCommonControls
  | ModuleInit
  | AreWeUACElevated
  | PerformMachineInstallSetup
  | CanInstallDotNet4_5
  | MessageBox (text caption : WString)
  | IsDotNet45OrHigherInstalled
  | InstallDotNetFramework (isQuiet : Bool)
  | DisplayErrorMessage (text : WString)
  | GetModuleHandle
  | GetModuleFileNameW
  | ShellExecuteFromExplorer (buf lpCmdLine : WString)
  | ExtractUpdaterAndRun (lpCmdLine : WString) (isElevatedRelaunch : Bool)
  | ModuleTerm
  | CoUninitialize
  deriving DecidableEq, Repr

/-- What the external collaborators answer during one run.  Each is called at
most once by `wWinMain`, so a value (or a function of the call's arguments)
describes it completely. -/
structure Env where
  /-- Result of `MachineInstaller::ShouldSilentInstall()`. -/
  ShouldSilentInstall : Bool
  /-- Result of `CUpdateRunner::AreWeUACElevated()`; `S_OK` means elevated. -/
  AreWeUACElevated : HRESULT
  /-- Result of `MachineInstaller::PerformMachineInstallSetup()`. -/
  PerformMachineInstallSetup : Int
  /-- Result of `CFxHelper::CanInstallDotNet4_5()`. -/
  CanInstallDotNet4_5 : Bool
  /-- Result of `CFxHelper::IsDotNet45OrHigherInstalled()`. -/
  IsDotNet45OrHigherInstalled : Bool
  /-- Result of `CFxHelper::InstallDotNetFramework(isQuiet)`. -/
  InstallDotNetFramework : Bool → HRESULT
  /-- Contents of `buf` after `GetModuleFileNameW(GetModuleHandle(NULL), buf, 4096)`:
  the path of the running executable image. -/
  GetModuleFileNameW : WString
  /-- Result of `CUpdateRunner::ExtractUpdaterAndRun(lpCmdLine, flag)`. -/
  ExtractUpdaterAndRun : WString → Bool → Int
  /-- What the `LogMessage` calls of the run find outside the program. -/
  log : LogEnv

/-- Outcome of one run: the value `wWinMain` returns (`none` when the run ends
inside a `LogMessage` call that does not return) and the calls it made, in order. -/
structure Run where
  exitCode : Option Int
  trace : List Event
  deriving DecidableEq, Repr

/-- The label `out:` of `wWinMain`: `_Module.Term(); ::CoUninitialize(); return exitCode;`. -/
def out (exitCode : Int) (tr : List Event) : Run :=
  { exitCode := some exitCode, trace := tr ++ [Event.ModuleTerm, Event.CoUninitialize] }

/-- The run ends inside the `LogMessage` call made last: nothing is returned. -/
def killed (tr : List Event) : Run :=
  { exitCode := none, trace := tr }

/-- The function `wWinMain` of `Setup/winmain.cpp`.  `lpCmdLine0` is the buffer
`lpCmdLine` on entry.  `ATLASSERT` compiles to nothing in a release build and the
results of `CoInitialize` and `_Module.Init` are not read.  Each `LogMessage` call
is recorded in the trace and run through `LogMessage`; the run goes on only when
the call returns. -/
def wWinMain (env : Env) (lpCmdLine0 : WString) : Run := Id.run do
  let mut tr : List Event := [Event.SetDefaultDllDirectories]
  let mut exitCode : Int := -1
  let mut lpCmdLine : WString := lpCmdLine0
  let cmdLine : WString := lpCmdLine0
  tr := tr ++ [Event.LogMessage false msgStartUp [lpCmdLine]]
  if !(LogMessage env.log false msgStartUp [lpCmdLine]).returns then
    return killed tr
  if Find cmdLine tokCheckInstall ≥ 0 then
    tr := tr ++ [Event.ShouldSilentInstall]
    if !env.ShouldSilentInstall then
      tr := tr ++ [Event.LogMessage false msgAlreadyInstalled []]
      if !(LogMessage env.log false msgAlreadyInstalled []).returns then
        return killed tr
      exitCode := 0
      return out exitCode tr
    lpCmdLine := wcscat lpCmdLine silentFlag
  tr := tr ++ [Event.CoInitialize, Event.AtlInitCommonControls, Event.ModuleInit]
  let mut isQuiet : Bool := decide (Find cmdLine tokQuiet ≥ 0)
  tr := tr ++ [Event.AreWeUACElevated]
  let weAreUACElevated : Bool := decide (env.AreWeUACElevated = S_OK)
  let explicitMachineInstall : Bool := decide (Find cmdLine tokMachine ≥ 0)
  if explicitMachineInstall || weAreUACElevated then
    tr := tr ++ [Event.LogMessage false msgWantMachine []]
    if !(LogMessage env.log false msgWantMachine []).returns then
      return killed tr
    tr := tr ++ [Event.PerformMachineInstallSetup]
    exitCode := env.PerformMachineInstallSetup
    if exitCode ≠ 0 then
      return out exitCode tr
    isQuiet := true
    if explicitMachineInstall then
      lpCmdLine := wcscat lpCmdLine silentFlag
      tr := tr ++ [Event.LogMessage false msgMachineDone []]
      if !(LogMessage env.log false msgMachineDone []).returns then
        return killed tr
  else
    tr := tr ++ [Event.LogMessage false msgWantStandard []]
    if !(LogMessage env.log false msgWantStandard []).returns then
      return killed tr
  tr := tr ++ [Event.CanInstallDotNet4_5]
  if !env.CanInstallDotNet4_5 then
    tr := tr ++ [Event.MessageBox msgIncompatible captionIncompatible]
    exitCode := E_FAIL
    return out exitCode tr
  tr := tr ++ [Event.IsDotNet45OrHigherInstalled]
  if !env.IsDotNet45OrHigherInstalled then
    tr := tr ++ [Event.InstallDotNetFramework isQuiet]
    let hr : HRESULT := env.InstallDotNetFramework isQuiet
    if FAILED hr then
      exitCode := hr
      tr := tr ++ [Event.DisplayErrorMessage msgDotNetFailed]
      return out exitCode tr
    if hr ≠ S_OK then
      exitCode := 0
      return out exitCode tr
  if weAreUACElevated then
    tr := tr ++ [Event.GetModuleHandle, Event.GetModuleFileNameW]
    let buf : WString := env.GetModuleFileNameW
    tr := tr ++ [Event.LogMessage false msgRestart [buf, lpCmdLine]]
    if !(LogMessage env.log false msgRestart [buf, lpCmdLine]).returns then
      return killed tr
    tr := tr ++ [Event.ShellExecuteFromExplorer buf lpCmdLine]
    exitCode := 0
    return out exitCode tr
  tr := tr ++ [Event.ExtractUpdaterAndRun lpCmdLine false]
  exitCode := env.ExtractUpdaterAndRun lpCmdLine false
  return out exitCode tr

/-! ## Observations on a trace -/

/-- The update handoff, `CUpdateRunner::ExtractUpdaterAndRun`. -/
def Event.isHandoff : Event → Bool
  | .ExtractUpdaterAndRun _ _ => true
  | _ => false

/-- The self-relaunch, `CUpdateRunner::ShellExecuteFromExplorer`. -/
def Event.isRelaunch : Event → Bool
  | .ShellExecuteFromExplorer _ _ => true
  | _ => false

/-- The prerequisite install, `CFxHelper::InstallDotNetFramework`. -/
def Event.isInstall : Event → Bool
  | .InstallDotNetFramework _ => true
  | _ => false

/-- A prerequisite check: the presence test `IsDotNet45OrHigherInstalled` or the
install `InstallDotNetFramework`. -/
def Event.isPrereq : Event → Bool
  | .IsDotNet45OrHigherInstalled => true
  | .InstallDotNetFramework _ => true
  | _ => false

/-- A call into one of the collaborators of the decision sequence: the
machine-install predicate and setup, the elevation probe, the platform and
prerequisite checks, the prerequisite install, the relaunch and the handoff. -/
def Event.isCollaborator : Event → Bool
  | .ShouldSilentInstall => true
  | .AreWeUACElevated => true
  | .PerformMachineInstallSetup => true
  | .CanInstallDotNet4_5 => true
  | .IsDotNet45OrHigherInstalled => true
  | .InstallDotNetFramework _ => true
  | .ShellExecuteFromExplorer _ _ => true
  | .ExtractUpdaterAndRun _ _ => true
  | _ => false

/-- A blocking notification shown to the user for a failure: the message box of
the platform check or the error dialog of the prerequisite install. -/
def Event.isFailureNotification : Event → Bool
  | .MessageBox _ _ => true
  | .DisplayErrorMessage _ => true
  | _ => false

/-- Number of calls in the trace that satisfy `p`. -/
def calls (p : Event → Bool) (tr : List Event) : Nat := tr.countP p

/-- No call satisfying `b` happens before the first call satisfying `a`. -/
def noneBefore (b a : Event → Bool) (tr : List Event) : Bool :=
  (tr.takeWhile (fun e => !a e)).all (fun e => !b e)

/-- A call of the logger, `LogMessage`. -/
def Event.isLogMessage : Event → Bool
  | .LogMessage _ _ _ => true
  | _ => false

/-- The hardening call `SetDefaultDllDirectories`. -/
def Event.isSetDefaultDllDirectories : Event → Bool
  | .SetDefaultDllDirectories => true
  | _ => false

/-- A call that blocks on the user: a message box, the error dialog, or a
`LogMessage` with `showMessageBox = true`. -/
def Event.isBlockingNotification : Event → Bool
  | .MessageBox _ _ => true
  | .DisplayErrorMessage _ => true
  | .LogMessage b _ _ => b
  | _ => false

/-- The flag `showMessageBox` of a `LogMessage` call; false for every other call. -/
def Event.showMessageBox : Event → Bool
  | .LogMessage b _ _ => b
  | _ => false

/-- The relaunch or the handoff. -/
def Event.isTerminalCall (e : Event) : Bool := e.isRelaunch || e.isHandoff

/-- The calls that follow the first call satisfying `p`. -/
def afterFirst (p : Event → Bool) (tr : List Event) : List Event :=
  (tr.dropWhile (fun e => !p e)).tail

/-- The argument string handed to a relaunch or to a handoff. -/
def Event.argString : Event → Option WString
  | .ShellExecuteFromExplorer _ a => some a
  | .ExtractUpdaterAndRun a _ => some a
  | _ => none

/-- The number of ` --silent` that `wWinMain` appends: one for a `--checkInstall`
whose predicate answered true, one for `--machine`. -/
def silentCount (env : Env) (s : WString) : Nat :=
  (if tokCheckInstall <:+: s ∧ env.ShouldSilentInstall = true then 1 else 0)
    + (if tokMachine <:+: s then 1 else 0)

/-! ## The values of the local variables of `wWinMain`, as functions of the input

These name what the local variables hold at the program points the lemmas
below speak about; `wWinMain_eq_runOf` proves that they do. -/

/-- The test `cmdLine.Find(L"--checkInstall") >= 0`. -/
def checkInstall (s : WString) : Bool := decide (Find s tokCheckInstall ≥ 0)

/-- The local `explicitMachineInstall`. -/
def explicitMachineInstall (s : WString) : Bool := decide (Find s tokMachine ≥ 0)

/-- The local `weAreUACElevated`. -/
def weAreUACElevated (env : Env) : Bool := decide (env.AreWeUACElevated = S_OK)

/-- The run leaves at the first `goto out`: `--checkInstall` and nothing to install. -/
def fastExit (env : Env) (s : WString) : Bool := checkInstall s && !env.ShouldSilentInstall

/-- The condition `explicitMachineInstall || weAreUACElevated`. -/
def wantMachine (env : Env) (s : WString) : Bool := explicitMachineInstall s || weAreUACElevated env

/-- The local `isQuiet` once the machine-install block is passed. -/
def isQuiet (env : Env) (s : WString) : Bool :=
  if wantMachine env s then true else decide (Find s tokQuiet ≥ 0)

/-- The buffer `lpCmdLine` after the `--checkInstall` block. -/
def cmdLineAfterCheck (s : WString) : WString :=
  if checkInstall s then wcscat s silentFlag else s

/-- The buffer `lpCmdLine` once the machine-install block is passed. -/
def cmdLineOut (s : WString) : WString :=
  if explicitMachineInstall s then wcscat (cmdLineAfterCheck s) silentFlag else cmdLineAfterCheck s

/-- The calls made up to and including the elevation probe, when the run does not
leave at the first `goto out`. -/
def traceToProbe (s : WString) : List Event :=
  [Event.SetDefaultDllDirectories, Event.LogMessage false msgStartUp [s]]
    ++ (if checkInstall s then [Event.ShouldSilentInstall] else [])
    ++ [Event.CoInitialize, Event.AtlInitCommonControls, Event.ModuleInit, Event.AreWeUACElevated]

/-- The calls of the machine-install block when the setup returns zero, or of its `else`. -/
def traceMachine (env : Env) (s : WString) : List Event :=
  if wantMachine env s then
    [Event.LogMessage false msgWantMachine [], Event.PerformMachineInstallSetup]
      ++ (if explicitMachineInstall s then [Event.LogMessage false msgMachineDone []] else [])
  else [Event.LogMessage false msgWantStandard []]

/-- The calls made up to and including the platform check. -/
def traceToPlatform (env : Env) (s : WString) : List Event :=
  traceToProbe s ++ traceMachine env s ++ [Event.CanInstallDotNet4_5]

/-- The calls made up to and including the prerequisite presence check. -/
def traceToPrereq (env : Env) (s : WString) : List Event :=
  traceToPlatform env s ++ [Event.IsDotNet45OrHigherInstalled]

/-- The calls made up to the elevation test at the end, on a run that gets there. -/
def traceToDeescalation (env : Env) (s : WString) : List Event :=
  traceToPrereq env s
    ++ (if env.IsDotNet45OrHigherInstalled then [] else [Event.InstallDotNetFramework (isQuiet env s)])

/-- The start-up `LogMessage` call, with the command line as argument, returns. -/
def startUpReturns (env : Env) (s : WString) : Bool :=
  (LogMessage env.log false msgStartUp [s]).returns

/-- The `LogMessage` call before the relaunch, with the executable path and the
argument buffer as arguments, returns. -/
def restartReturns (env : Env) (s : WString) : Bool :=
  (LogMessage env.log false msgRestart [env.GetModuleFileNameW, cmdLineOut s]).returns

/-- The ways out of `wWinMain`: the seven returns, and the two `LogMessage` calls
whose arguments come from outside and may be too long for `buff`. -/
inductive Path where
  | killedAtStartUp
  | killedAtRestart
  | alreadyInstalled
  | setupFailed
  | incompatible
  | installFailed
  | installNoAction
  | relaunch
  | handoff
  deriving DecidableEq, Repr

/-- Which way out the run takes, read off the tests of `wWinMain` in their order. -/
def path (env : Env) (s : WString) : Path :=
  if !startUpReturns env s then Path.killedAtStartUp
  else if fastExit env s then Path.alreadyInstalled
  else if wantMachine env s && decide (env.PerformMachineInstallSetup ≠ 0) then Path.setupFailed
  else if !env.CanInstallDotNet4_5 then Path.incompatible
  else if !env.IsDotNet45OrHigherInstalled && FAILED (env.InstallDotNetFramework (isQuiet env s)) then
    Path.installFailed
  else if !env.IsDotNet45OrHigherInstalled && decide (env.InstallDotNetFramework (isQuiet env s) ≠ S_OK) then
    Path.installNoAction
  else if weAreUACElevated env then
    if restartReturns env s then Path.relaunch else Path.killedAtRestart
  else Path.handoff

/-- What the tests of `wWinMain` have established when the run takes a given way out. -/
def guard (env : Env) (s : WString) : Path → Prop
  | Path.killedAtStartUp => startUpReturns env s = false
  | Path.alreadyInstalled => startUpReturns env s = true ∧ fastExit env s = true
  | Path.setupFailed =>
      startUpReturns env s = true ∧ fastExit env s = false ∧ wantMachine env s = true ∧
        env.PerformMachineInstallSetup ≠ 0
  | Path.incompatible =>
      startUpReturns env s = true ∧ fastExit env s = false ∧
        (wantMachine env s = true → env.PerformMachineInstallSetup = 0) ∧
        env.CanInstallDotNet4_5 = false
  | Path.installFailed =>
      startUpReturns env s = true ∧ fastExit env s = false ∧
        (wantMachine env s = true → env.PerformMachineInstallSetup = 0) ∧
        env.CanInstallDotNet4_5 = true ∧ env.IsDotNet45OrHigherInstalled = false ∧
        FAILED (env.InstallDotNetFramework (isQuiet env s)) = true
  | Path.installNoAction =>
      startUpReturns env s = true ∧ fastExit env s = false ∧
        (wantMachine env s = true → env.PerformMachineInstallSetup = 0) ∧
        env.CanInstallDotNet4_5 = true ∧ env.IsDotNet45OrHigherInstalled = false ∧
        FAILED (env.InstallDotNetFramework (isQuiet env s)) = false ∧
        env.InstallDotNetFramework (isQuiet env s) ≠ S_OK
  | Path.relaunch =>
      startUpReturns env s = true ∧ fastExit env s = false ∧
        (wantMachine env s = true → env.PerformMachineInstallSetup = 0) ∧
        env.CanInstallDotNet4_5 = true ∧
        (env.IsDotNet45OrHigherInstalled = false →
          env.InstallDotNetFramework (isQuiet env s) = S_OK) ∧
        weAreUACElevated env = true ∧ restartReturns env s = true
  | Path.killedAtRestart =>
      startUpReturns env s = true ∧ fastExit env s = false ∧
        (wantMachine env s = true → env.PerformMachineInstallSetup = 0) ∧
        env.CanInstallDotNet4_5 = true ∧
        (env.IsDotNet45OrHigherInstalled = false →
          env.InstallDotNetFramework (isQuiet env s) = S_OK) ∧
        weAreUACElevated env = true ∧ restartReturns env s = false
  | Path.handoff =>
      startUpReturns env s = true ∧ fastExit env s = false ∧
        (wantMachine env s = true → env.PerformMachineInstallSetup = 0) ∧
        env.CanInstallDotNet4_5 = true ∧
        (env.IsDotNet45OrHigherInstalled = false →
          env.InstallDotNetFramework (isQuiet env s) = S_OK) ∧
        weAreUACElevated env = false

/-- The run each way out produces. -/
def runOf (env : Env) (s : WString) : Path → Run
  | Path.killedAtStartUp =>
      killed [Event.SetDefaultDllDirectories, Event.LogMessage false msgStartUp [s]]
  | Path.killedAtRestart =>
      killed (traceToDeescalation env s ++ [Event.GetModuleHandle, Event.GetModuleFileNameW,
        Event.LogMessage false msgRestart [env.GetModuleFileNameW, cmdLineOut s]])
  | Path.alreadyInstalled =>
      out 0 [Event.SetDefaultDllDirectories, Event.LogMessage false msgStartUp [s],
        Event.ShouldSilentInstall, Event.LogMessage false msgAlreadyInstalled []]
  | Path.setupFailed =>
      out env.PerformMachineInstallSetup
        (traceToProbe s ++ [Event.LogMessage false msgWantMachine [], Event.PerformMachineInstallSetup])
  | Path.incompatible =>
      out E_FAIL (traceToPlatform env s ++ [Event.MessageBox msgIncompatible captionIncompatible])
  | Path.installFailed =>
      out (env.InstallDotNetFramework (isQuiet env s))
        (traceToPrereq env s ++ [Event.InstallDotNetFramework (isQuiet env s),
          Event.DisplayErrorMessage msgDotNetFailed])
  | Path.installNoAction =>
      out 0 (traceToPrereq env s ++ [Event.InstallDotNetFramework (isQuiet env s)])
  | Path.relaunch =>
      out 0 (traceToDeescalation env s ++ [Event.GetModuleHandle, Event.GetModuleFileNameW,
        Event.LogMessage false msgRestart [env.GetModuleFileNameW, cmdLineOut s],
        Event.ShellExecuteFromExplorer env.GetModuleFileNameW (cmdLineOut s)])
  | Path.handoff =>
      out (env.ExtractUpdaterAndRun (cmdLineOut s) false)
        (traceToDeescalation env s ++ [Event.ExtractUpdaterAndRun (cmdLineOut s) false])

/-! ## Concrete environments used to run the model -/

/-- A log environment in which `TEMP` is not set. -/
def lenvNoTemp : LogEnv :=
  { getenvTEMP := none
    fopen := fun _ => true
    wcstombs := fun w n => some (w.take n) }

/-- A log environment in which `TEMP` is set and the log file cannot be opened. -/
def lenvNoFile : LogEnv :=
  { getenvTEMP := some "C:\\Temp".toList
    fopen := fun _ => false
    wcstombs := fun w n => some (w.take n) }

/-- A log environment in which the log file can be written. -/
def lenvOk : LogEnv :=
  { getenvTEMP := some "C:\\Temp".toList
    fopen := fun _ => true
    wcstombs := fun w n => some (w.take n) }

/-- An environment in which the process is elevated and every step succeeds. -/
def envElevated : Env :=
  { ShouldSilentInstall := true
    AreWeUACElevated := S_OK
    PerformMachineInstallSetup := 0
    CanInstallDotNet4_5 := true
    IsDotNet45OrHigherInstalled := true
    InstallDotNetFramework := fun _ => S_OK
    GetModuleFileNameW := "C:\\Setup.exe".toList
    ExtractUpdaterAndRun := fun _ _ => 7
    log := lenvOk }

/-- An environment in which `ShouldSilentInstall` answers false. -/
def envAlreadyInstalled : Env :=
  { ShouldSilentInstall := false
    AreWeUACElevated := S_OK
    PerformMachineInstallSetup := 0
    CanInstallDotNet4_5 := true
    IsDotNet45OrHigherInstalled := false
    InstallDotNetFramework := fun _ => S_OK
    GetModuleFileNameW := "C:\\Setup.exe".toList
    ExtractUpdaterAndRun := fun _ _ => 7
    log := lenvOk }

/-- An environment in which the machine-install setup fails with code 1603. -/
def envSetupFails : Env :=
  { ShouldSilentInstall := true
    AreWeUACElevated := S_OK
    PerformMachineInstallSetup := 1603
    CanInstallDotNet4_5 := true
    IsDotNet45OrHigherInstalled := true
    InstallDotNetFramework := fun _ => S_OK
    GetModuleFileNameW := "C:\\Setup.exe".toList
    ExtractUpdaterAndRun := fun _ _ => 7
    log := lenvOk }

/-- An elevated environment in which the runtime is absent and its install fails with `E_FAIL`. -/
def envInstallFails : Env :=
  { ShouldSilentInstall := true
    AreWeUACElevated := S_OK
    PerformMachineInstallSetup := 0
    CanInstallDotNet4_5 := true
    IsDotNet45OrHigherInstalled := false
    InstallDotNetFramework := fun _ => E_FAIL
    GetModuleFileNameW := "C:\\Setup.exe".toList
    ExtractUpdaterAndRun := fun _ _ => 7
    log := lenvOk }

/-- A non-elevated environment in which the runtime is absent and its install
answers `S_FALSE`. -/
def envInstallNoAction : Env :=
  { ShouldSilentInstall := true
    AreWeUACElevated := S_FALSE
    PerformMachineInstallSetup := 0
    CanInstallDotNet4_5 := true
    IsDotNet45OrHigherInstalled := false
    InstallDotNetFramework := fun _ => S_FALSE
    GetModuleFileNameW := "C:\\Setup.exe".toList
    ExtractUpdaterAndRun := fun _ _ => 7
    log := lenvOk }

/-- A non-elevated environment in which `ShouldSilentInstall` answers true, the
runtime is absent and its install answers `S_OK`. -/
def envSilentInstall : Env :=
  { ShouldSilentInstall := true
    AreWeUACElevated := S_FALSE
    PerformMachineInstallSetup := 0
    CanInstallDotNet4_5 := true
    IsDotNet45OrHigherInstalled := false
    InstallDotNetFramework := fun _ => S_OK
    GetModuleFileNameW := "C:\\Setup.exe".toList
    ExtractUpdaterAndRun := fun _ _ => 7
    log := lenvOk }

/-- A non-elevated environment with the runtime present on a platform below the minimum. -/
def envIncompatible : Env :=
  { ShouldSilentInstall := true
    AreWeUACElevated := S_FALSE
    PerformMachineInstallSetup := 0
    CanInstallDotNet4_5 := false
    IsDotNet45OrHigherInstalled := true
    InstallDotNetFramework := fun _ => S_OK
    GetModuleFileNameW := "C:\\Setup.exe".toList
    ExtractUpdaterAndRun := fun _ _ => 7
    log := lenvOk }

/-- A non-elevated environment in which the runtime is absent, its install answers
`S_OK`, and the handoff returns the length of the argument string it is given. -/
def envMachine : Env :=
  { ShouldSilentInstall := true
    AreWeUACElevated := S_FALSE
    PerformMachineInstallSetup := 0
    CanInstallDotNet4_5 := true
    IsDotNet45OrHigherInstalled := false
    InstallDotNetFramework := fun _ => S_OK
    GetModuleFileNameW := "C:\\Setup.exe".toList
    ExtractUpdaterAndRun := fun a _ => a.length
    log := lenvOk }

/-- A command line of 3014 characters that contains `--checkInstall`. -/
def longCheckInstall : WString := "--checkInstall".toList ++ List.replicate 3000 (Char.ofNat 97)

/-- A log environment in which `TEMP` has 253 characters and the log file cannot be opened. -/
def lenvLongTemp : LogEnv :=
  { getenvTEMP := some ("C:\\".toList ++ List.replicate 250 (Char.ofNat 97))
    fopen := fun _ => false
    wcstombs := fun w n => some (w.take n) }

/-! ## When a `LogMessage` call returns -/

/-- A `LogMessage` call returns exactly when what `_vsnwprintf` writes fits in `buff`
and the log path fits in `path`. -/
theorem LogMessage_returns (lenv : LogEnv) (b : Bool) (fmt : WString) (args : List WString) :
    (LogMessage lenv b fmt args).returns =
      (decide (storedCount formatLimit (expandS fmt args) ≤ buffLen) && pathFits lenv) := by
  unfold LogMessage pathFits
  cases ht : lenv.getenvTEMP <;> simp only [Id.run] <;> split_ifs <;> simp_all

theorem pathFits_of_returns {lenv : LogEnv} {b : Bool} {fmt : WString} {args : List WString}
    (h : (LogMessage lenv b fmt args).returns = true) : pathFits lenv = true := by
  rw [LogMessage_returns] at h
  simp_all

theorem returns_msgAlreadyInstalled (lenv : LogEnv) (b : Bool) (h : pathFits lenv = true) :
    (LogMessage lenv b msgAlreadyInstalled []).returns = true := by
  rw [LogMessage_returns, h]
  decide

theorem returns_msgWantMachine (lenv : LogEnv) (b : Bool) (h : pathFits lenv = true) :
    (LogMessage lenv b msgWantMachine []).returns = true := by
  rw [LogMessage_returns, h]
  decide

theorem returns_msgMachineDone (lenv : LogEnv) (b : Bool) (h : pathFits lenv = true) :
    (LogMessage lenv b msgMachineDone []).returns = true := by
  rw [LogMessage_returns, h]
  decide

theorem returns_msgWantStandard (lenv : LogEnv) (b : Bool) (h : pathFits lenv = true) :
    (LogMessage lenv b msgWantStandard []).returns = true := by
  rw [LogMessage_returns, h]
  decide

/-! ## The run of `wWinMain` along each way out -/

set_option maxHeartbeats 4000000 in
theorem wWinMain_eq_runOf (env : Env) (s : WString) : wWinMain env s = runOf env s (path env s) := by
  by_cases hstart : (LogMessage env.log false msgStartUp [s]).returns = true
  · have hpf := pathFits_of_returns hstart
    have h1 := returns_msgAlreadyInstalled env.log false hpf
    have h2 := returns_msgWantMachine env.log false hpf
    have h3 := returns_msgMachineDone env.log false hpf
    have h4 := returns_msgWantStandard env.log false hpf
    simp only [wWinMain, Id.run, Id.pure_eq, Id.bind_eq, pure_bind, ge_iff_le, Bool.not_eq_true',
      Bool.or_eq_true, decide_eq_true_eq, ne_eq, ite_not, hstart, h1, h2, h3, h4,
      Bool.true_eq_false, Bool.not_true, Bool.false_eq_true, if_false, if_true, reduceIte]
    by_cases hc : 0 ≤ Find s tokCheckInstall <;> cases hs : env.ShouldSilentInstall <;>
      simp only [hc, if_true, if_false, reduceIte, Bool.true_eq_false, Bool.false_eq_true]
    · simp [path, startUpReturns, hstart, fastExit, checkInstall, hc, hs, runOf]
    all_goals
      by_cases hm : 0 ≤ Find s tokMachine <;> by_cases he : env.AreWeUACElevated = S_OK <;>
      by_cases hp : env.PerformMachineInstallSetup = 0 <;>
      simp only [hm, he, hp, if_true, if_false, reduceIte, true_or, or_true, or_self, or_false,
        false_or] <;>
      cases hcan : env.CanInstallDotNet4_5 <;> cases hi : env.IsDotNet45OrHigherInstalled <;>
      (try simp only [if_true, if_false, reduceIte, Bool.true_eq_false, Bool.false_eq_true]) <;>
      simp [hc, hs, hm, he, hp, hcan, hi, path, startUpReturns, restartReturns, hstart, runOf,
        fastExit, wantMachine, checkInstall,
        explicitMachineInstall, weAreUACElevated, isQuiet, cmdLineOut, cmdLineAfterCheck, traceToProbe,
        traceMachine, traceToPlatform, traceToPrereq, traceToDeescalation, out, killed] <;>
      split_ifs <;> simp_all
  · simp [wWinMain, Id.run, path, startUpReturns, hstart, runOf]

/-! ## `Find` decides substring presence -/

theorem findFrom_nonneg_iff (pat s : WString) (i : Nat) : 0 ≤ findFrom pat s i ↔ pat <:+: s := by
  induction s generalizing i with
  | nil =>
    by_cases hp : pat = []
    · simp [findFrom, hp]
    · simp [findFrom, hp]
  | cons c cs ih =>
    by_cases hpre : pat.isPrefixOf (c :: cs) = true
    · have h1 : pat <+: c :: cs := List.isPrefixOf_iff_prefix.1 hpre
      simp [findFrom, hpre, h1.isInfix]
    · have h1 : ¬ pat <+: c :: cs := fun h => hpre (List.isPrefixOf_iff_prefix.2 h)
      simp only [findFrom, hpre, if_false, Bool.false_eq_true]
      rw [ih (i + 1), List.infix_cons_iff]
      simp [h1]

/-- The test `cmdLine.Find(pat) >= 0` holds exactly when `pat` occurs in `cmdLine`. -/
theorem Find_nonneg_iff (s pat : WString) : Find s pat ≥ 0 ↔ pat <:+: s :=
  findFrom_nonneg_iff pat s 0

theorem checkInstall_eq_true_iff (s : WString) : checkInstall s = true ↔ tokCheckInstall <:+: s := by
  simp [checkInstall, ← Find_nonneg_iff]

theorem explicitMachineInstall_eq_true_iff (s : WString) :
    explicitMachineInstall s = true ↔ tokMachine <:+: s := by
  simp [explicitMachineInstall, ← Find_nonneg_iff]

theorem weAreUACElevated_eq_true_iff (env : Env) :
    weAreUACElevated env = true ↔ env.AreWeUACElevated = S_OK := by
  simp [weAreUACElevated]

/-- The way out a run takes comes with the facts that the tests before it established. -/
theorem path_guard (env : Env) (s : WString) : guard env s (path env s) := by
  unfold path
  split_ifs <;> simp_all [guard]

theorem path_incompatible (env : Env) (s : WString) (h : path env s = Path.incompatible) :
    env.CanInstallDotNet4_5 = false := by
  have hg := path_guard env s
  rw [h] at hg
  exact hg.2.2.2

theorem path_installFailed (env : Env) (s : WString) (h : path env s = Path.installFailed) :
    FAILED (env.InstallDotNetFramework (isQuiet env s)) = true := by
  have hg := path_guard env s
  rw [h] at hg
  exact hg.2.2.2.2.2

theorem path_setupFailed (env : Env) (s : WString) (h : path env s = Path.setupFailed) :
    env.PerformMachineInstallSetup ≠ 0 := by
  have hg := path_guard env s
  rw [h] at hg
  exact hg.2.2.2

theorem startUpReturns_false_of_path {env : Env} {s : WString}
    (h : path env s = Path.killedAtStartUp) : startUpReturns env s = false := by
  have hg := path_guard env s
  rw [h] at hg
  exact hg

theorem restartReturns_false_of_path {env : Env} {s : WString}
    (h : path env s = Path.killedAtRestart) : restartReturns env s = false := by
  have hg := path_guard env s
  rw [h] at hg
  exact hg.2.2.2.2.2.2

/-! ## Counting and membership in the pieces of a trace -/

theorem countP_traceToProbe (p : Event → Bool) (s : WString) :
    (traceToProbe s).countP p =
      [Event.SetDefaultDllDirectories, Event.LogMessage false msgStartUp [s]].countP p
        + (if checkInstall s then [Event.ShouldSilentInstall].countP p else 0)
        + [Event.CoInitialize, Event.AtlInitCommonControls, Event.ModuleInit,
            Event.AreWeUACElevated].countP p := by
  unfold traceToProbe
  split_ifs <;> simp only [List.countP_append, List.countP_nil, add_zero]

theorem countP_traceMachine (p : Event → Bool) (env : Env) (s : WString) :
    (traceMachine env s).countP p =
      if wantMachine env s then
        [Event.LogMessage false msgWantMachine [], Event.PerformMachineInstallSetup].countP p
          + (if explicitMachineInstall s then [Event.LogMessage false msgMachineDone []].countP p
              else 0)
      else [Event.LogMessage false msgWantStandard []].countP p := by
  unfold traceMachine
  split_ifs <;> simp only [List.countP_append, List.countP_nil, add_zero]

theorem countP_traceToDeescalation (p : Event → Bool) (env : Env) (s : WString) :
    (traceToDeescalation env s).countP p =
      (traceToPrereq env s).countP p
        + (if env.IsDotNet45OrHigherInstalled then 0
            else [Event.InstallDotNetFramework (isQuiet env s)].countP p) := by
  unfold traceToDeescalation
  split_ifs <;> simp only [List.countP_append, List.countP_nil, add_zero]

theorem mem_traceToProbe (e : Event) (s : WString) :
    e ∈ traceToProbe s ↔
      e ∈ [Event.SetDefaultDllDirectories, Event.LogMessage false msgStartUp [s]]
        ∨ (checkInstall s = true ∧ e = Event.ShouldSilentInstall)
        ∨ e ∈ [Event.CoInitialize, Event.AtlInitCommonControls, Event.ModuleInit,
            Event.AreWeUACElevated] := by
  by_cases h : checkInstall s = true <;> simp [traceToProbe, h, or_assoc]

theorem mem_traceMachine (e : Event) (env : Env) (s : WString) :
    e ∈ traceMachine env s ↔
      (wantMachine env s = true ∧
          (e ∈ [Event.LogMessage false msgWantMachine [], Event.PerformMachineInstallSetup]
            ∨ (explicitMachineInstall s = true ∧ e = Event.LogMessage false msgMachineDone [])))
        ∨ (wantMachine env s = false ∧ e = Event.LogMessage false msgWantStandard []) := by
  by_cases h1 : wantMachine env s = true <;> by_cases h2 : explicitMachineInstall s = true <;>
    simp [traceMachine, h1, h2, or_assoc]

theorem mem_traceToDeescalation (e : Event) (env : Env) (s : WString) :
    e ∈ traceToDeescalation env s ↔
      e ∈ traceToPrereq env s
        ∨ (env.IsDotNet45OrHigherInstalled = false ∧
            e = Event.InstallDotNetFramework (isQuiet env s)) := by
  by_cases h : env.IsDotNet45OrHigherInstalled = true <;> simp [traceToDeescalation, h]

/-! ## The message box of `LogMessage` -/

theorem MessageBox_mem_effects {lenv : LogEnv} {b : Bool} {fmt : WString} {args : List WString}
    {text caption : WString}
    (h : LogEffect.MessageBox text caption ∈ (LogMessage lenv b fmt args).effects) :
    b = true := by
  cases b
  · exfalso
    revert h
    cases ht : lenv.getenvTEMP <;> simp [LogMessage, Id.run, ht] <;> split_ifs <;> simp
  · rfl

/-! ## The arguments of the calls in a trace -/

theorem mem_install {env : Env} {s : WString} {q : Bool}
    (h : Event.InstallDotNetFramework q ∈ (wWinMain env s).trace) : q = isQuiet env s := by
  rw [wWinMain_eq_runOf] at h
  have hg := path_guard env s
  cases hp : path env s <;> rw [hp] at h hg <;>
    simp_all [guard, runOf, out, killed, calls, traceToPrereq, traceToPlatform, countP_traceToProbe,
      countP_traceMachine, countP_traceToDeescalation, mem_traceToProbe, mem_traceMachine,
      mem_traceToDeescalation, List.countP_append]

theorem mem_relaunch {env : Env} {s : WString} {buf a : WString}
    (h : Event.ShellExecuteFromExplorer buf a ∈ (wWinMain env s).trace) :
    a = cmdLineOut s ∧ buf = env.GetModuleFileNameW ∧ fastExit env s = false := by
  rw [wWinMain_eq_runOf] at h
  have hg := path_guard env s
  cases hp : path env s <;> rw [hp] at h hg <;>
    simp_all [guard, runOf, out, killed, calls, traceToPrereq, traceToPlatform, countP_traceToProbe,
      countP_traceMachine, countP_traceToDeescalation, mem_traceToProbe, mem_traceMachine,
      mem_traceToDeescalation, List.countP_append]

theorem mem_handoff {env : Env} {s : WString} {a : WString} {b : Bool}
    (h : Event.ExtractUpdaterAndRun a b ∈ (wWinMain env s).trace) :
    a = cmdLineOut s ∧ b = false ∧ fastExit env s = false := by
  rw [wWinMain_eq_runOf] at h
  have hg := path_guard env s
  cases hp : path env s <;> rw [hp] at h hg <;>
    simp_all [guard, runOf, out, killed, calls, traceToPrereq, traceToPlatform, countP_traceToProbe,
      countP_traceMachine, countP_traceToDeescalation, mem_traceToProbe, mem_traceMachine,
      mem_traceToDeescalation, List.countP_append]

theorem cmdLineOut_prefix {s : WString} (h : checkInstall s = true) :
    wcscat s silentFlag <+: cmdLineOut s := by
  by_cases hm : explicitMachineInstall s = true <;>
    simp [cmdLineOut, cmdLineAfterCheck, h, hm, wcscat]

theorem cmdLineOut_eq_silentCount {env : Env} {s : WString} (h : fastExit env s = false) :
    cmdLineOut s = s ++ (List.replicate (silentCount env s) silentFlag).flatten := by
  simp only [silentCount, ← checkInstall_eq_true_iff, ← explicitMachineInstall_eq_true_iff]
  by_cases hc : checkInstall s = true <;> by_cases hm : explicitMachineInstall s = true <;>
    cases hs : env.ShouldSilentInstall <;>
    simp_all [fastExit, cmdLineOut, cmdLineAfterCheck, wcscat, List.replicate]

/-- The start-up line is the 20 characters of its text followed by the command line. -/
theorem expandS_msgStartUp (a : WString) :
    expandS msgStartUp [a] = "Start up installer: ".toList ++ a := by
  simp [expandS, msgStartUp, expandFrom]

/-- The restart line is its 35 characters of text around the executable path and
the argument string. -/
theorem expandS_msgRestart (b a : WString) :
    expandS msgRestart [b, a] =
      "we are UAC elevated, so restart ".toList ++ (b ++ (", ".toList ++ (a ++ "\n".toList))) := by
  simp [expandS, msgRestart, expandFrom]

/-- The start-up `LogMessage` call returns exactly when the command line has fewer
than 1004 characters and the log path fits in `path`. -/
theorem startUpReturns_iff (env : Env) (s : WString) :
    startUpReturns env s = true ↔ s.length < 1004 ∧ pathFits env.log = true := by
  have h20 : ("Start up installer: ".toList).length = 20 := by decide
  unfold startUpReturns
  rw [LogMessage_returns, expandS_msgStartUp]
  simp only [storedCount, List.length_append, h20, formatLimit, sizeofBuff, buffLen, sizeofWchar,
    Bool.and_eq_true, decide_eq_true_eq]
  constructor
  · rintro ⟨h1, h2⟩
    refine ⟨?_, h2⟩
    split_ifs at h1 <;> omega
  · rintro ⟨h1, h2⟩
    refine ⟨?_, h2⟩
    split_ifs <;> omega

/-- The `LogMessage` call before the relaunch returns exactly when the executable
path and the argument string together have fewer than 989 characters and the
log path fits in `path`. -/
theorem restartReturns_iff (env : Env) (s : WString) :
    restartReturns env s = true ↔
      env.GetModuleFileNameW.length + (cmdLineOut s).length < 989 ∧ pathFits env.log = true := by
  have h32 : ("we are UAC elevated, so restart ".toList).length = 32 := by decide
  have h2 : (", ".toList).length = 2 := by decide
  have h1 : ("\n".toList).length = 1 := by decide
  unfold restartReturns
  rw [LogMessage_returns, expandS_msgRestart]
  simp only [storedCount, List.length_append, h32, h2, h1, formatLimit, sizeofBuff, buffLen,
    sizeofWchar, Bool.and_eq_true, decide_eq_true_eq]
  constructor
  · rintro ⟨h3, h4⟩
    refine ⟨?_, h4⟩
    split_ifs at h3 <;> omega
  · rintro ⟨h3, h4⟩
    refine ⟨?_, h4⟩
    split_ifs <;> omega

/-! ## The two claims that hold only while `LogMessage` returns -/

/-- With `--checkInstall` in the string and `ShouldSilentInstall` answering false, a
run whose start-up `LogMessage` call returns, returns 0 and calls no collaborator
but `ShouldSilentInstall`. -/
theorem check_install_fast_exit_of_startUpReturns (env : Env) (s : WString)
    (hcheck : tokCheckInstall <:+: s) (hpred : env.ShouldSilentInstall = false)
    (hstart : startUpReturns env s = true) :
    (wWinMain env s).exitCode = some 0 ∧
      (wWinMain env s).trace.filter Event.isCollaborator = [Event.ShouldSilentInstall] := by
  have hc : checkInstall s = true := (checkInstall_eq_true_iff s).2 hcheck
  rw [wWinMain_eq_runOf]
  simp [path, hstart, fastExit, hc, hpred, runOf, out, Event.isCollaborator]

/-- When `TEMP` is not set or the log file cannot be opened, a `LogMessage` call that
returns has written nothing to a file and has sent the formatted message to the
debug stream, and it has shown a message box exactly when `showMessageBox` is true. -/
theorem log_failure_is_silent_of_returns (lenv : LogEnv) (showMessageBox : Bool) (fmt : WString)
    (args : List WString)
    (hfail : lenv.getenvTEMP = none ∨
      ∃ tempDir, lenv.getenvTEMP = some tempDir ∧ lenv.fopen (logPath tempDir) = false)
    (hret : (LogMessage lenv showMessageBox fmt args).returns = true) :
    (∀ data, LogEffect.fwrite data ∉ (LogMessage lenv showMessageBox fmt args).effects) ∧
      LogEffect.OutputDebugString (formatted fmt args) ∈
        (LogMessage lenv showMessageBox fmt args).effects ∧
      (LogEffect.MessageBox (formatted fmt args) "Installer".toList ∈
        (LogMessage lenv showMessageBox fmt args).effects ↔ showMessageBox = true) := by
  rw [LogMessage_returns] at hret
  have h1 : ¬ storedCount formatLimit (expandS fmt args) > buffLen := by
    simp only [Bool.and_eq_true, decide_eq_true_eq] at hret
    omega
  rcases hfail with hnone | ⟨tempDir, hsome, hopen⟩
  · cases showMessageBox <;> simp [LogMessage, Id.run, hnone, formatted, h1]
  · have h2 : ¬ (logPath tempDir).length + 1 > MAX_PATH := by
      simp only [pathFits, hsome, Bool.and_eq_true, decide_eq_true_eq] at hret
      omega
    cases showMessageBox <;> simp [LogMessage, Id.run, hsome, hopen, formatted, h1, h2]

/-! ## Claims -/

/-- C1: in a run whose elevation probe answers `S_OK` (elevated), whatever the
invocation string and the other collaborators answer, `wWinMain` makes no call to
`ExtractUpdaterAndRun`. -/
theorem C1_elevated_never_hands_off (env : Env) (s : WString)
    (helev : env.AreWeUACElevated = S_OK) :
    calls Event.isHandoff (wWinMain env s).trace = 0 := by
  rw [wWinMain_eq_runOf]
  have he : weAreUACElevated env = true := (weAreUACElevated_eq_true_iff env).2 helev
  have hg := path_guard env s
  cases hp : path env s <;> rw [hp] at hg <;>
    simp_all [guard, runOf, out, killed, calls, traceToPrereq, traceToPlatform, countP_traceToProbe,
      countP_traceMachine, countP_traceToDeescalation, List.countP_append, Event.isHandoff]

theorem C1_elevated_never_hands_off_witness :
    envElevated.AreWeUACElevated = S_OK ∧
      calls Event.isHandoff (wWinMain envElevated "--machine".toList).trace = 0 :=
  ⟨by decide, C1_elevated_never_hands_off envElevated "--machine".toList (by decide)⟩

/-- C2 fails on the code: the command line `longCheckInstall` contains
`--checkInstall` and `ShouldSilentInstall` answers false, but the start-up
`LogMessage` call is handed the 3014 characters of the command line, writes past
`buff` and does not return: the run returns nothing, and not even
`ShouldSilentInstall` is called. -/
theorem C2_long_command_line_is_killed :
    tokCheckInstall <:+: longCheckInstall ∧
      envAlreadyInstalled.ShouldSilentInstall = false ∧
      (LogMessage envAlreadyInstalled.log false msgStartUp [longCheckInstall]).returns = false ∧
      (wWinMain envAlreadyInstalled longCheckInstall).exitCode = none ∧
      (wWinMain envAlreadyInstalled longCheckInstall).trace =
        [Event.SetDefaultDllDirectories, Event.LogMessage false msgStartUp [longCheckInstall]] := by
  have hlen : longCheckInstall.length = 3014 := by
    unfold longCheckInstall
    rw [List.length_append, List.length_replicate]
    decide
  have h20 : ("Start up installer: ".toList).length = 20 := by decide
  have hret : (LogMessage envAlreadyInstalled.log false msgStartUp [longCheckInstall]).returns
      = false := by
    rw [LogMessage_returns, expandS_msgStartUp]
    simp only [storedCount, List.length_append, h20, hlen, formatLimit, sizeofBuff, buffLen,
      sizeofWchar]
    decide
  have hpath : path envAlreadyInstalled longCheckInstall = Path.killedAtStartUp := by
    simp [path, startUpReturns, hret]
  refine ⟨⟨[], List.replicate 3000 (Char.ofNat 97), rfl⟩, rfl, hret, ?_, ?_⟩
  · rw [wWinMain_eq_runOf, hpath]
    rfl
  · rw [wWinMain_eq_runOf, hpath]
    rfl

/-- C5: when `PerformMachineInstallSetup` is called and returns a non-zero value,
that value is the exit code, and the run makes no prerequisite presence check, no
prerequisite install, no relaunch and no handoff. -/
theorem C5_setup_failure_is_fatal (env : Env) (s : WString)
    (hcalled : Event.PerformMachineInstallSetup ∈ (wWinMain env s).trace)
    (hfail : env.PerformMachineInstallSetup ≠ 0) :
    (wWinMain env s).exitCode = some env.PerformMachineInstallSetup ∧
      calls Event.isPrereq (wWinMain env s).trace = 0 ∧
      calls Event.isRelaunch (wWinMain env s).trace = 0 ∧
      calls Event.isHandoff (wWinMain env s).trace = 0 := by
  rw [wWinMain_eq_runOf] at hcalled ⊢
  have hg := path_guard env s
  cases hp : path env s <;> rw [hp] at hcalled hg <;>
    simp_all [guard, runOf, out, killed, calls, traceToPrereq, traceToPlatform, countP_traceToProbe,
      countP_traceMachine, countP_traceToDeescalation, mem_traceToProbe, mem_traceMachine,
      mem_traceToDeescalation, List.countP_append, Event.isHandoff, Event.isRelaunch, Event.isPrereq, wantMachine]

theorem C5_setup_failure_is_fatal_witness :
    Event.PerformMachineInstallSetup ∈ (wWinMain envSetupFails []).trace ∧
      envSetupFails.PerformMachineInstallSetup ≠ 0 ∧
      (wWinMain envSetupFails []).exitCode = some envSetupFails.PerformMachineInstallSetup ∧
      calls Event.isPrereq (wWinMain envSetupFails []).trace = 0 ∧
      calls Event.isRelaunch (wWinMain envSetupFails []).trace = 0 ∧
      calls Event.isHandoff (wWinMain envSetupFails []).trace = 0 :=
  ⟨by decide, by decide, C5_setup_failure_is_fatal envSetupFails [] (by decide) (by decide)⟩

/-- C6: when `InstallDotNetFramework` is called and the value it returns is a
failure `HRESULT`, the failure dialog `DisplayErrorMessage` is shown, that value is
the exit code unchanged, and neither the relaunch nor the handoff is called. -/
theorem C6_install_failure (env : Env) (s : WString) (q : Bool)
    (hcalled : Event.InstallDotNetFramework q ∈ (wWinMain env s).trace)
    (hfail : FAILED (env.InstallDotNetFramework q) = true) :
    Event.DisplayErrorMessage msgDotNetFailed ∈ (wWinMain env s).trace ∧
      (wWinMain env s).exitCode = some (env.InstallDotNetFramework q) ∧
      calls Event.isRelaunch (wWinMain env s).trace = 0 ∧
      calls Event.isHandoff (wWinMain env s).trace = 0 := by
  rw [wWinMain_eq_runOf] at hcalled ⊢
  have hg := path_guard env s
  cases hp : path env s <;> rw [hp] at hcalled hg <;>
    simp_all [guard, runOf, out, killed, calls, traceToPrereq, traceToPlatform, countP_traceToProbe,
      countP_traceMachine, countP_traceToDeescalation, mem_traceToProbe, mem_traceMachine,
      mem_traceToDeescalation, List.countP_append, Event.isRelaunch, Event.isHandoff] <;>
    exact absurd hfail (by decide)

theorem C6_install_failure_witness :
    Event.InstallDotNetFramework true ∈ (wWinMain envInstallFails []).trace ∧
      FAILED (envInstallFails.InstallDotNetFramework true) = true ∧
      Event.DisplayErrorMessage msgDotNetFailed ∈ (wWinMain envInstallFails []).trace ∧
      (wWinMain envInstallFails []).exitCode = some (envInstallFails.InstallDotNetFramework true) ∧
      calls Event.isRelaunch (wWinMain envInstallFails []).trace = 0 ∧
      calls Event.isHandoff (wWinMain envInstallFails []).trace = 0 :=
  ⟨by decide, by decide, C6_install_failure envInstallFails [] true (by decide) (by decide)⟩

/-- C7: when `InstallDotNetFramework` is called and returns a status that is not a
failure and is not `S_OK` (such as `S_FALSE`), the exit code is 0 and the handoff
`ExtractUpdaterAndRun` is not called. -/
theorem C7_install_no_action (env : Env) (s : WString) (q : Bool)
    (hcalled : Event.InstallDotNetFramework q ∈ (wWinMain env s).trace)
    (hnofail : FAILED (env.InstallDotNetFramework q) = false)
    (hnotok : env.InstallDotNetFramework q ≠ S_OK) :
    (wWinMain env s).exitCode = some 0 ∧ calls Event.isHandoff (wWinMain env s).trace = 0 := by
  rw [wWinMain_eq_runOf] at hcalled ⊢
  have hg := path_guard env s
  cases hp : path env s <;> rw [hp] at hcalled hg <;>
    simp_all [guard, runOf, out, killed, calls, traceToPrereq, traceToPlatform, countP_traceToProbe,
      countP_traceMachine, countP_traceToDeescalation, mem_traceToProbe, mem_traceMachine,
      mem_traceToDeescalation, List.countP_append, Event.isHandoff]

theorem C7_install_no_action_witness :
    Event.InstallDotNetFramework false ∈ (wWinMain envInstallNoAction []).trace ∧
      FAILED (envInstallNoAction.InstallDotNetFramework false) = false ∧
      envInstallNoAction.InstallDotNetFramework false ≠ S_OK ∧
      (wWinMain envInstallNoAction []).exitCode = some 0 ∧
      calls Event.isHandoff (wWinMain envInstallNoAction []).trace = 0 :=
  ⟨by decide, by decide, by decide,
    C7_install_no_action envInstallNoAction [] false (by decide) (by decide) (by decide)⟩

/-- C9, as stated, fails: the string is `--checkInstall`, `ShouldSilentInstall`
answers true, and the prerequisite install is called with `isQuiet = false`. -/
theorem C9_counterexample :
    tokCheckInstall <:+: "--checkInstall".toList ∧
      envSilentInstall.ShouldSilentInstall = true ∧
      Event.InstallDotNetFramework false ∈
        (wWinMain envSilentInstall "--checkInstall".toList).trace ∧
      Event.InstallDotNetFramework true ∉
        (wWinMain envSilentInstall "--checkInstall".toList).trace := by
  decide

set_option linter.unusedVariables false in
/-- C9, amended: when the invocation string contains `--checkInstall` and
`ShouldSilentInstall` answers true, the silent flag is forced only into the argument
string: every relaunch and every handoff of the run receives a string that starts
with the original string followed by ` --silent`.  The prerequisite install, when it
is called, is called with `isQuiet = true` exactly when the original string
contains `-s` or `--machine` or the process is elevated. -/
theorem C9_check_install_silent_flag (env : Env) (s : WString)
    (hcheck : tokCheckInstall <:+: s) (hpred : env.ShouldSilentInstall = true) :
    (∀ q, Event.InstallDotNetFramework q ∈ (wWinMain env s).trace →
        (q = true ↔ (tokQuiet <:+: s ∨ tokMachine <:+: s ∨ env.AreWeUACElevated = S_OK))) ∧
      (∀ buf a, Event.ShellExecuteFromExplorer buf a ∈ (wWinMain env s).trace →
        wcscat s silentFlag <+: a) ∧
      (∀ a b, Event.ExtractUpdaterAndRun a b ∈ (wWinMain env s).trace →
        wcscat s silentFlag <+: a) := by
  have hc : checkInstall s = true := (checkInstall_eq_true_iff s).2 hcheck
  refine ⟨fun q hq => ?_, fun buf a h => ?_, fun a b h => ?_⟩
  · rw [mem_install hq, ← Find_nonneg_iff s tokQuiet, ← explicitMachineInstall_eq_true_iff,
      ← weAreUACElevated_eq_true_iff]
    by_cases hm : explicitMachineInstall s = true <;>
      by_cases he : weAreUACElevated env = true <;> simp [isQuiet, wantMachine, hm, he]
  · rw [(mem_relaunch h).1]
    exact cmdLineOut_prefix hc
  · rw [(mem_handoff h).1]
    exact cmdLineOut_prefix hc

theorem C9_check_install_silent_flag_witness :
    tokCheckInstall <:+: "--checkInstall".toList ∧
      envSilentInstall.ShouldSilentInstall = true ∧
      Event.InstallDotNetFramework false ∈
        (wWinMain envSilentInstall "--checkInstall".toList).trace ∧
      ¬ (tokQuiet <:+: "--checkInstall".toList ∨ tokMachine <:+: "--checkInstall".toList ∨
        envSilentInstall.AreWeUACElevated = S_OK) ∧
      Event.ExtractUpdaterAndRun "--checkInstall --silent".toList false ∈
        (wWinMain envSilentInstall "--checkInstall".toList).trace ∧
      wcscat "--checkInstall".toList silentFlag <+: "--checkInstall --silent".toList :=
  ⟨by decide, by decide, by decide,
    fun h => Bool.false_ne_true
      (((C9_check_install_silent_flag envSilentInstall "--checkInstall".toList
        (by decide) (by decide)).1 false (by decide)).2 h),
    by decide,
    (C9_check_install_silent_flag envSilentInstall "--checkInstall".toList
      (by decide) (by decide)).2.2 "--checkInstall --silent".toList false (by decide)⟩

/-- C11: when the invocation string contains `--machine`, the process is not
elevated, `PerformMachineInstallSetup` is called and returns 0, the platform check
passes, and the runtime is absent with its install returning `S_OK`: the install is
called once, with `isQuiet = true`; the handoff is called once, with
`isElevatedRelaunch = false` and an argument string that is the original string
with the ` --silent` of `--machine` at its end (after the one of `--checkInstall`,
if any); and the exit code is what the handoff returns. -/
theorem C11_machine_install_handoff (env : Env) (s : WString)
    (hmachine : tokMachine <:+: s)
    (hnotelev : env.AreWeUACElevated ≠ S_OK)
    (hcalled : Event.PerformMachineInstallSetup ∈ (wWinMain env s).trace)
    (hsetup : env.PerformMachineInstallSetup = 0)
    (hplatform : env.CanInstallDotNet4_5 = true)
    (habsent : env.IsDotNet45OrHigherInstalled = false)
    (hinstall : env.InstallDotNetFramework true = S_OK) :
    (wWinMain env s).trace.filter Event.isInstall = [Event.InstallDotNetFramework true] ∧
      (wWinMain env s).trace.filter Event.isHandoff =
        [Event.ExtractUpdaterAndRun
          (s ++ (if tokCheckInstall <:+: s then silentFlag else []) ++ silentFlag) false] ∧
      (wWinMain env s).exitCode =
        some (env.ExtractUpdaterAndRun
          (s ++ (if tokCheckInstall <:+: s then silentFlag else []) ++ silentFlag) false) := by
  simp only [← checkInstall_eq_true_iff]
  have hm : explicitMachineInstall s = true := (explicitMachineInstall_eq_true_iff s).2 hmachine
  have he : weAreUACElevated env = false := by simpa [weAreUACElevated] using hnotelev
  have hw : wantMachine env s = true := by simp [wantMachine, hm]
  have hq : isQuiet env s = true := by simp [isQuiet, hw]
  have hst : startUpReturns env s = true := by
    cases hsr : startUpReturns env s
    · rw [wWinMain_eq_runOf] at hcalled
      simp [path, hsr, runOf, killed] at hcalled
    · rfl
  have hf : fastExit env s = false := by
    cases hfe : fastExit env s
    · rfl
    · rw [wWinMain_eq_runOf] at hcalled
      simp [path, hst, hfe, runOf, out] at hcalled
  have hpath : path env s = Path.handoff := by
    unfold path
    rw [hst, hf, hw, hq, he, hsetup, hplatform, habsent, hinstall]
    simp [FAILED, S_OK]
  rw [wWinMain_eq_runOf, hpath]
  simp only [runOf, out, killed, traceToDeescalation, traceToPrereq, traceToPlatform, traceToProbe,
    traceMachine, cmdLineOut, cmdLineAfterCheck, wcscat]
  split_ifs <;> simp_all [Event.isInstall, Event.isHandoff]

theorem C11_machine_install_handoff_witness :
    tokMachine <:+: "-s --machine".toList ∧
      envMachine.AreWeUACElevated ≠ S_OK ∧
      Event.PerformMachineInstallSetup ∈ (wWinMain envMachine "-s --machine".toList).trace ∧
      envMachine.PerformMachineInstallSetup = 0 ∧
      envMachine.CanInstallDotNet4_5 = true ∧
      envMachine.IsDotNet45OrHigherInstalled = false ∧
      envMachine.InstallDotNetFramework true = S_OK ∧
      (wWinMain envMachine "-s --machine".toList).trace.filter Event.isInstall =
        [Event.InstallDotNetFramework true] ∧
      (wWinMain envMachine "-s --machine".toList).trace.filter Event.isHandoff =
        [Event.ExtractUpdaterAndRun
          ("-s --machine".toList
            ++ (if tokCheckInstall <:+: "-s --machine".toList then silentFlag else [])
            ++ silentFlag) false] ∧
      (wWinMain envMachine "-s --machine".toList).exitCode =
        some (envMachine.ExtractUpdaterAndRun
          ("-s --machine".toList
            ++ (if tokCheckInstall <:+: "-s --machine".toList then silentFlag else [])
            ++ silentFlag) false) :=
  ⟨by decide, by decide, by decide, by decide, by decide, by decide, by decide,
    C11_machine_install_handoff envMachine "-s --machine".toList
      (by decide) (by decide) (by decide) (by decide) (by decide) (by decide) (by decide)⟩

/-- C13: when the run reaches the platform check `CanInstallDotNet4_5` and it
answers false, the message box is shown and the exit code is `E_FAIL`, that is
`0x80004005` read as a signed 32-bit integer, whatever the invocation string says
about quiet mode; the runtime presence check, its install, the relaunch and the
handoff are not called. -/
theorem C13_incompatible_platform (env : Env) (s : WString)
    (hreached : Event.CanInstallDotNet4_5 ∈ (wWinMain env s).trace)
    (hbelow : env.CanInstallDotNet4_5 = false) :
    Event.MessageBox msgIncompatible captionIncompatible ∈ (wWinMain env s).trace ∧
      (wWinMain env s).exitCode = some E_FAIL ∧
      E_FAIL = 0x80004005 - 2 ^ 32 ∧
      calls Event.isPrereq (wWinMain env s).trace = 0 ∧
      calls Event.isRelaunch (wWinMain env s).trace = 0 ∧
      calls Event.isHandoff (wWinMain env s).trace = 0 := by
  have key : Event.MessageBox msgIncompatible captionIncompatible ∈ (wWinMain env s).trace ∧
      (wWinMain env s).exitCode = some E_FAIL ∧
      calls Event.isPrereq (wWinMain env s).trace = 0 ∧
      calls Event.isRelaunch (wWinMain env s).trace = 0 ∧
      calls Event.isHandoff (wWinMain env s).trace = 0 := by
    rw [wWinMain_eq_runOf] at hreached ⊢
    have hg := path_guard env s
    cases hp : path env s <;> rw [hp] at hreached hg <;>
      simp only [runOf, out, killed, traceToDeescalation, traceToPrereq, traceToPlatform, traceToProbe,
        traceMachine] at hreached ⊢ <;>
      (try split_ifs at hreached ⊢) <;>
      simp_all [guard, calls, Event.isPrereq, Event.isRelaunch, Event.isHandoff]
  exact ⟨key.1, key.2.1, by decide, key.2.2⟩

theorem C13_incompatible_platform_witness :
    Event.CanInstallDotNet4_5 ∈ (wWinMain envIncompatible "-s".toList).trace ∧
      envIncompatible.CanInstallDotNet4_5 = false ∧
      Event.MessageBox msgIncompatible captionIncompatible ∈
        (wWinMain envIncompatible "-s".toList).trace ∧
      (wWinMain envIncompatible "-s".toList).exitCode = some E_FAIL ∧
      E_FAIL = 0x80004005 - 2 ^ 32 ∧
      calls Event.isPrereq (wWinMain envIncompatible "-s".toList).trace = 0 ∧
      calls Event.isRelaunch (wWinMain envIncompatible "-s".toList).trace = 0 ∧
      calls Event.isHandoff (wWinMain envIncompatible "-s".toList).trace = 0 :=
  ⟨by decide, by decide,
    C13_incompatible_platform envIncompatible "-s".toList (by decide) (by decide)⟩

/-- C14: in every run the relaunch and the handoff together are called at most
once, and no collaborator call follows the one that is made: what follows it is
only the epilogue at `out:`. -/
theorem C14_relaunch_handoff_exclusive_terminal (env : Env) (s : WString) :
    calls Event.isRelaunch (wWinMain env s).trace + calls Event.isHandoff (wWinMain env s).trace ≤ 1 ∧
      calls Event.isCollaborator (afterFirst Event.isTerminalCall (wWinMain env s).trace) = 0 ∧
      (calls Event.isTerminalCall (wWinMain env s).trace = 1 →
        afterFirst Event.isTerminalCall (wWinMain env s).trace =
          [Event.ModuleTerm, Event.CoUninitialize]) := by
  rw [wWinMain_eq_runOf]
  cases hp : path env s <;>
    simp only [runOf, out, killed, traceToDeescalation, traceToPrereq, traceToPlatform, traceToProbe,
      traceMachine] <;>
    (try split_ifs) <;>
    simp [calls, afterFirst, Event.isTerminalCall, Event.isCollaborator, Event.isRelaunch,
      Event.isHandoff, List.dropWhile]

/-- C15: in a run in which the platform check does not fail and no prerequisite
install fails, `wWinMain` raises no blocking notification: no message box, no error
dialog, and every `LogMessage` call it makes passes `showMessageBox = false`, for
which `LogMessage` shows no message box. -/
theorem C15_notification_only_on_failure (env : Env) (s : WString)
    (hplatform : Event.CanInstallDotNet4_5 ∈ (wWinMain env s).trace → env.CanInstallDotNet4_5 = true)
    (hinstall : ∀ q, Event.InstallDotNetFramework q ∈ (wWinMain env s).trace →
      FAILED (env.InstallDotNetFramework q) = false) :
    calls Event.isBlockingNotification (wWinMain env s).trace = 0 ∧
      (∀ b fmt args, Event.LogMessage b fmt args ∈ (wWinMain env s).trace → b = false) ∧
      (∀ lenv fmt args text caption,
        LogEffect.MessageBox text caption ∉ (LogMessage lenv false fmt args).effects) := by
  have hlog : ∀ lenv fmt args text caption,
      LogEffect.MessageBox text caption ∉ (LogMessage lenv false fmt args).effects :=
    fun lenv fmt args text caption h => Bool.false_ne_true (MessageBox_mem_effects h)
  refine ⟨?_, ?_, hlog⟩
  · have h1 : path env s ≠ Path.incompatible := by
      intro hp
      have hc := path_incompatible env s hp
      rw [wWinMain_eq_runOf, hp] at hplatform
      have := hplatform (by simp [runOf, out, traceToPlatform])
      simp_all
    have h2 : path env s ≠ Path.installFailed := by
      intro hp
      have hc := path_installFailed env s hp
      rw [wWinMain_eq_runOf, hp] at hinstall
      have := hinstall (isQuiet env s) (by simp [runOf, out, killed])
      simp_all
    clear hplatform hinstall
    rw [wWinMain_eq_runOf]
    cases hp : path env s <;>
      simp only [runOf, out, killed, traceToDeescalation, traceToPrereq, traceToPlatform, traceToProbe,
        traceMachine] <;>
      (try split_ifs) <;>
      simp_all [calls, Event.isBlockingNotification]
  · clear hplatform hinstall
    have hflags : calls Event.showMessageBox (wWinMain env s).trace = 0 := by
      rw [wWinMain_eq_runOf]
      cases hp : path env s <;>
        simp only [runOf, out, killed, traceToDeescalation, traceToPrereq, traceToPlatform, traceToProbe,
          traceMachine] <;>
        (try split_ifs) <;>
        simp [calls, Event.showMessageBox]
    intro b fmt args hmem
    have hb := (List.countP_eq_zero.1 hflags) _ hmem
    simpa [Event.showMessageBox] using hb

theorem C15_notification_only_on_failure_witness :
    (Event.CanInstallDotNet4_5 ∈ (wWinMain envMachine "--machine".toList).trace →
        envMachine.CanInstallDotNet4_5 = true) ∧
      (∀ q, Event.InstallDotNetFramework q ∈ (wWinMain envMachine "--machine".toList).trace →
        FAILED (envMachine.InstallDotNetFramework q) = false) ∧
      calls Event.isBlockingNotification (wWinMain envMachine "--machine".toList).trace = 0 ∧
      (∀ b fmt args, Event.LogMessage b fmt args ∈
        (wWinMain envMachine "--machine".toList).trace → b = false) ∧
      (∀ lenv fmt args text caption,
        LogEffect.MessageBox text caption ∉ (LogMessage lenv false fmt args).effects) :=
  ⟨by decide, by decide,
    C15_notification_only_on_failure envMachine "--machine".toList (by decide) (by decide)⟩

/-- C16: in every run the call `SetDefaultDllDirectories` is the first event of the
trace, and it is made once: every collaborator call and every `LogMessage` call
comes after it. -/
theorem C16_dll_hardening_first (env : Env) (s : WString) :
    (wWinMain env s).trace.head? = some Event.SetDefaultDllDirectories ∧
      calls Event.isSetDefaultDllDirectories (wWinMain env s).trace = 1 ∧
      noneBefore (fun e => e.isCollaborator || e.isLogMessage) Event.isSetDefaultDllDirectories
        (wWinMain env s).trace = true := by
  rw [wWinMain_eq_runOf]
  cases hp : path env s <;>
    simp only [runOf, out, killed, traceToDeescalation, traceToPrereq, traceToPlatform, traceToProbe,
      traceMachine] <;>
    (try split_ifs) <;>
    simp [calls, noneBefore, Event.isSetDefaultDllDirectories, List.takeWhile]

/-- C17 fails on the code.  With `TEMP` not set, a `LogMessage` call whose command
line argument has 1100 characters has `_vsnwprintf` store 1121 elements in the 1024
elements of `buff`, before `TEMP` is read: the call does not return.  With `TEMP` of
253 characters and a log file that cannot be opened, a call with
`showMessageBox = true` has `sprintf` store 272 elements in the `MAX_PATH` elements
of `path`, before `fopen` is tried: the call does not return. -/
theorem C17_log_overruns_its_arrays :
    lenvNoTemp.getenvTEMP = none ∧
      storedCount formatLimit (expandS msgStartUp [List.replicate 1100 (Char.ofNat 97)]) = 1121 ∧
      (LogMessage lenvNoTemp false msgStartUp [List.replicate 1100 (Char.ofNat 97)]).returns
        = false ∧
      (∃ tempDir, lenvLongTemp.getenvTEMP = some tempDir ∧
        lenvLongTemp.fopen (logPath tempDir) = false ∧
        (logPath tempDir).length + 1 = 272) ∧
      MAX_PATH = 260 ∧
      (LogMessage lenvLongTemp true msgAlreadyInstalled []).returns = false := by
  refine ⟨rfl, ?_, ?_, ⟨_, rfl, rfl, ?_⟩, rfl, ?_⟩
  · set_option maxRecDepth 100000 in decide
  · set_option maxRecDepth 100000 in decide
  · set_option maxRecDepth 100000 in decide
  · set_option maxRecDepth 100000 in decide

/-- C18 fails on the code: the count that `LogMessage` hands to `_vsnwprintf` is
`sizeof(buff)`, 2048, twice the 1024 wide characters that `buff` holds; for a
command line of 1100 characters the formatter is allowed to store 1120 wide
characters, more than the buffer holds, and the call does not return. -/
theorem C18_format_limit_exceeds_buffer :
    formatLimit = 2048 ∧ buffLen = 1024 ∧ ¬ formatLimit ≤ buffLen ∧
      (formatted msgStartUp [List.replicate 1100 (Char.ofNat 97)]).length = 1120 ∧
      buffLen < (formatted msgStartUp [List.replicate 1100 (Char.ofNat 97)]).length ∧
      (LogMessage lenvOk false msgStartUp [List.replicate 1100 (Char.ofNat 97)]).returns = false := by
  have hlen : (formatted msgStartUp [List.replicate 1100 (Char.ofNat 97)]).length = 1120 := by
    set_option maxRecDepth 100000 in decide
  have hret : (LogMessage lenvOk false msgStartUp [List.replicate 1100 (Char.ofNat 97)]).returns
      = false := by
    set_option maxRecDepth 100000 in decide
  refine ⟨by decide, by decide, by decide, hlen, ?_, hret⟩
  rw [hlen]
  decide

/-- C19: in every run, the argument string that a relaunch or a handoff receives is
the original invocation string followed by `silentCount` copies of ` --silent`: one
for a `--checkInstall` whose predicate answered true, one for `--machine`, both
read on the original string.  The count is 2 when both hold and 0 when neither
token is present, elevated or not. -/
theorem C19_argument_string (env : Env) (s : WString) :
    (∀ a ∈ (wWinMain env s).trace.filterMap Event.argString,
        a = s ++ (List.replicate (silentCount env s) silentFlag).flatten) ∧
      (tokCheckInstall <:+: s → env.ShouldSilentInstall = true → tokMachine <:+: s →
        silentCount env s = 2) ∧
      (¬ tokCheckInstall <:+: s → ¬ tokMachine <:+: s → silentCount env s = 0) := by
  refine ⟨?_, ?_, ?_⟩
  · intro a ha
    obtain ⟨e, he, hea⟩ := List.mem_filterMap.1 ha
    cases e <;> simp [Event.argString] at hea
    · subst hea
      obtain ⟨h1, _, h3⟩ := mem_relaunch he
      rw [h1, cmdLineOut_eq_silentCount h3]
    · subst hea
      obtain ⟨h1, _, h3⟩ := mem_handoff he
      rw [h1, cmdLineOut_eq_silentCount h3]
  · intro h1 h2 h3
    simp [silentCount, h1, h2, h3]
  · intro h1 h3
    simp [silentCount, h1, h3]

/-- C20: a run of `wWinMain` that returns, returns 0, or `E_FAIL`, or the non-zero
value returned by a call of `PerformMachineInstallSetup`, or the failure `HRESULT`
returned by a call of `InstallDotNetFramework`, or the value returned by a call of
`ExtractUpdaterAndRun`; in particular it returns -1 only when one of these calls
returned -1.  The only runs that return nothing end inside a `LogMessage` call that
does not return, and a run in which the start-up call and, when the process is
elevated, the call before the relaunch return, returns a value. -/
theorem C20_exit_code_origin (env : Env) (s : WString) :
    ((wWinMain env s).exitCode = none ∨
        (wWinMain env s).exitCode = some 0 ∨ (wWinMain env s).exitCode = some E_FAIL ∨
        (Event.PerformMachineInstallSetup ∈ (wWinMain env s).trace ∧
          env.PerformMachineInstallSetup ≠ 0 ∧
          (wWinMain env s).exitCode = some env.PerformMachineInstallSetup) ∨
        (∃ q, Event.InstallDotNetFramework q ∈ (wWinMain env s).trace ∧
          FAILED (env.InstallDotNetFramework q) = true ∧
          (wWinMain env s).exitCode = some (env.InstallDotNetFramework q)) ∨
        (∃ a, Event.ExtractUpdaterAndRun a false ∈ (wWinMain env s).trace ∧
          (wWinMain env s).exitCode = some (env.ExtractUpdaterAndRun a false))) ∧
      ((wWinMain env s).exitCode = some (-1) →
        (Event.PerformMachineInstallSetup ∈ (wWinMain env s).trace ∧
          env.PerformMachineInstallSetup = -1) ∨
        (∃ q, Event.InstallDotNetFramework q ∈ (wWinMain env s).trace ∧
          env.InstallDotNetFramework q = -1) ∨
        (∃ a, Event.ExtractUpdaterAndRun a false ∈ (wWinMain env s).trace ∧
          env.ExtractUpdaterAndRun a false = -1)) ∧
      ((wWinMain env s).exitCode = none →
        ∃ fmt args, (wWinMain env s).trace.getLast? = some (Event.LogMessage false fmt args) ∧
          (LogMessage env.log false fmt args).returns = false) ∧
      (startUpReturns env s = true →
        (env.AreWeUACElevated = S_OK → restartReturns env s = true) →
        (wWinMain env s).exitCode ≠ none) := by
  have horigin : (wWinMain env s).exitCode = none ∨
      (wWinMain env s).exitCode = some 0 ∨ (wWinMain env s).exitCode = some E_FAIL ∨
      (Event.PerformMachineInstallSetup ∈ (wWinMain env s).trace ∧
        env.PerformMachineInstallSetup ≠ 0 ∧
        (wWinMain env s).exitCode = some env.PerformMachineInstallSetup) ∨
      (∃ q, Event.InstallDotNetFramework q ∈ (wWinMain env s).trace ∧
        FAILED (env.InstallDotNetFramework q) = true ∧
        (wWinMain env s).exitCode = some (env.InstallDotNetFramework q)) ∨
      (∃ a, Event.ExtractUpdaterAndRun a false ∈ (wWinMain env s).trace ∧
        (wWinMain env s).exitCode = some (env.ExtractUpdaterAndRun a false)) := by
    rw [wWinMain_eq_runOf]
    cases hp : path env s
    · exact Or.inl (by simp [runOf, killed])
    · exact Or.inl (by simp [runOf, killed])
    · exact Or.inr (Or.inl (by simp [runOf, out]))
    · exact Or.inr (Or.inr (Or.inr (Or.inl
        ⟨by simp [runOf, out], path_setupFailed env s hp, by simp [runOf, out]⟩)))
    · exact Or.inr (Or.inr (Or.inl (by simp [runOf, out])))
    · exact Or.inr (Or.inr (Or.inr (Or.inr (Or.inl
        ⟨isQuiet env s, by simp [runOf, out], path_installFailed env s hp, by simp [runOf, out]⟩))))
    · exact Or.inr (Or.inl (by simp [runOf, out]))
    · exact Or.inr (Or.inl (by simp [runOf, out]))
    · exact Or.inr (Or.inr (Or.inr (Or.inr (Or.inr
        ⟨cmdLineOut s, by simp [runOf, out], by simp [runOf, out]⟩))))
  refine ⟨horigin, fun hminus => ?_, fun hnone => ?_, fun hstart hrestart => ?_⟩
  · rcases horigin with h | h | h | ⟨hmem, _, h⟩ | ⟨q, hmem, _, h⟩ | ⟨a, hmem, h⟩
    · rw [h] at hminus; exact absurd hminus (by decide)
    · rw [h] at hminus; exact absurd hminus (by decide)
    · rw [h] at hminus; exact absurd hminus (by decide)
    · exact Or.inl ⟨hmem, by rw [h] at hminus; exact Option.some.inj hminus⟩
    · exact Or.inr (Or.inl ⟨q, hmem, by rw [h] at hminus; exact Option.some.inj hminus⟩)
    · exact Or.inr (Or.inr ⟨a, hmem, by rw [h] at hminus; exact Option.some.inj hminus⟩)
  · rw [wWinMain_eq_runOf] at hnone ⊢
    cases hp : path env s <;> rw [hp] at hnone <;> simp [runOf, out, killed] at hnone ⊢
    · exact ⟨msgStartUp, [s], ⟨rfl, rfl⟩, by
        have := startUpReturns_false_of_path hp
        simpa [startUpReturns] using this⟩
    · exact ⟨msgRestart, [env.GetModuleFileNameW, cmdLineOut s], ⟨rfl, rfl⟩, by
        have := restartReturns_false_of_path hp
        simpa [restartReturns] using this⟩
  · rw [wWinMain_eq_runOf]
    have hg := path_guard env s
    cases hp : path env s <;> rw [hp] at hg <;> simp [runOf, out, killed]
    · rw [guard, hstart] at hg
      exact absurd hg (by decide)
    · have hr := hrestart ((weAreUACElevated_eq_true_iff env).1 hg.2.2.2.2.2.1)
      rw [hg.2.2.2.2.2.2] at hr
      exact absurd hr (by decide)

end Setup
